import Mathlib

/-!
Shallow embedding of the offline-resilience subsystem of DrugList/appflow:
the offline mutation queue of `src/hooks/use-offline.ts` and the caching
strategies of `public/sw.js`.  Each definition mirrors one function of the
source; theorems settle the specification claims about them.
-/

set_option autoImplicit false

namespace AppFlow

/-! ## Offline mutation queue (`src/hooks/use-offline.ts`) -/

/-- Source `QueuedAction['type']`: `'create' | 'update' | 'delete'`. -/
inductive ActionType where
  | create
  | update
  | delete
  deriving DecidableEq, Repr

/-- The `QueuedAction` interface.  `data` is the JSON serialization of the
`Record<string, unknown>` payload. -/
structure QueuedAction where
  id : String
  type : ActionType
  endpoint : String
  data : String
  timestamp : Nat
  retries : Nat
  deriving DecidableEq, Repr

/-- Source `const MAX_RETRIES = 3`. -/
def MAX_RETRIES : Nat := 3

/-- Outcome of one `fetch` call: `none` models a network exception (the
promise rejects), `some s` a response that resolved with HTTP status `s`. -/
abbrev FetchOutcome : Type := Option Nat

/-- Fetch-API `Response.ok`: status in the inclusive range 200–299. -/
def respOk (s : Nat) : Bool := 200 ≤ s && s ≤ 299

/-- The action built by `queueAction(type, endpoint, data)`: fresh `id` and
`Date.now()` are environment inputs; `retries` starts at 0. -/
def queueAction (freshId : String) (now : Nat) (type : ActionType)
    (endpoint : String) (data : String) : QueuedAction :=
  { id := freshId, type := type, endpoint := endpoint, data := data,
    timestamp := now, retries := 0 }

/-- The `catch` branch of `syncQueue` for one action: if `retries < MAX_RETRIES`
the action is pushed onto `failedActions` with `retries + 1`; otherwise an
`offline-sync-failed` event carrying the action is dispatched and the action is
dropped from the queue.  Returns (requeued action?, dispatched events). -/
def syncFailBranch (a : QueuedAction) : Option QueuedAction × List QueuedAction :=
  if a.retries < MAX_RETRIES then
    (some { a with retries := a.retries + 1 }, [])
  else
    (none, [a])

/-- The body of `syncQueue`'s `for` loop for one action: `fetch` the endpoint;
`response.ok` removes the action, any non-ok status throws, and the thrown or
network error lands in the `catch` branch. -/
def processAction (net : QueuedAction → FetchOutcome) (a : QueuedAction) :
    Option QueuedAction × List QueuedAction :=
  match net a with
  | some s => if respOk s then (none, []) else syncFailBranch a
  | none => syncFailBranch a

/-- The whole `for (const action of queue)` loop: walks the snapshot of the
queue in list order, collecting `failedActions`, dispatched events and the
fetches issued (one per action, in order). -/
def syncLoop (net : QueuedAction → FetchOutcome) :
    List QueuedAction → List QueuedAction × List QueuedAction × List QueuedAction
  | [] => ([], [], [])
  | a :: rest =>
    let r := processAction net a
    let t := syncLoop net rest
    (r.1.toList ++ t.1, r.2 ++ t.2.1, a :: t.2.2)

/-- The hook's state: the `queue` and `isSyncing` React state plus the
localStorage entry under `QUEUE_STORAGE_KEY` (`none` = key absent). -/
structure HookState where
  queue : List QueuedAction
  isSyncing : Bool
  storage : Option String
  deriving DecidableEq, Repr

/-- JSON.stringify of one `QueuedAction` (field order of the interface). -/
def serializeAction (a : QueuedAction) : String :=
  "\x7b\"id\":\"" ++ a.id ++ "\",\"type\":\"" ++
    (match a.type with
     | .create => "create"
     | .update => "update"
     | .delete => "delete") ++
    "\",\"endpoint\":\"" ++ a.endpoint ++ "\",\"data\":" ++ a.data ++
    ",\"timestamp\":" ++ toString a.timestamp ++
    ",\"retries\":" ++ toString a.retries ++ "\x7d"

/-- Source `JSON.stringify(queue)`. -/
def serializeQueue (q : List QueuedAction) : String :=
  "[" ++ String.intercalate "," (q.map serializeAction) ++ "]"

/-- The persist effect: `useEffect(() => localStorage.setItem(QUEUE_STORAGE_KEY,
JSON.stringify(queue)), [queue])` — runs after every render in which the
`queue` state object changed. -/
def persistEffect (s : HookState) : HookState :=
  { s with storage := some (serializeQueue s.queue) }

/-- Source `clearQueue`: `setQueue([]); localStorage.removeItem(QUEUE_STORAGE_KEY)`. -/
def clearQueue (s : HookState) : HookState :=
  { s with queue := [], storage := none }

/-- Source `syncQueue` as a state transformer, with the fetches it issues and the
`offline-sync-failed` events it dispatches: early return when `isSyncing` is
set or the queue is empty; otherwise run the loop over the queue snapshot and
finish with `setQueue(failedActions); setIsSyncing(false)`. -/
def syncQueue (net : QueuedAction → FetchOutcome) (s : HookState) :
    HookState × List QueuedAction × List QueuedAction :=
  if s.isSyncing || s.queue.isEmpty then (s, [], [])
  else
    let t := syncLoop net s.queue
    ({ s with queue := t.1, isSyncing := false }, t.2.2, t.2.1)

/-! Interleaving model for enqueues that happen while a replay pass is in
flight.  Each `setQueue` call of the source is one operation on the live
queue state: `queueAction` appends with a functional update, `removeAction`
filters with a functional update, and the final `setQueue(failedActions)` of
`syncQueue` replaces the whole value. -/

/-- One `setQueue` operation. -/
inductive QOp where
  | enq (a : QueuedAction)
  | rem (id : String)
  | replaceAll (q : List QueuedAction)
  deriving Repr

/-- Apply one `setQueue` operation to the live queue. -/
def applyOp (q : List QueuedAction) : QOp → List QueuedAction
  | .enq a => q ++ [a]
  | .rem i => q.filter (fun x => x.id ≠ i)
  | .replaceAll q' => q'

/-- Apply a sequence of `setQueue` operations in order. -/
def applyOps (q : List QueuedAction) (ops : List QOp) : List QueuedAction :=
  ops.foldl applyOp q

/-- The `setQueue` operations a replay pass performs on the live queue while
walking its snapshot: a `removeAction` per successful fetch, nothing on
failure. -/
def loopOps (net : QueuedAction → FetchOutcome) : List QueuedAction → List QOp
  | [] => []
  | a :: rest =>
    (match net a with
     | some s => if respOk s then [QOp.rem a.id] else []
     | none => []) ++ loopOps net rest

/-- A full replay pass over snapshot `q0` during which the external enqueue
operations `mid` are interleaved after the loop's own operations: the pass
ends with `setQueue(failedActions)` where `failedActions` was computed from
the snapshot. -/
def syncRunWithMidOps (net : QueuedAction → FetchOutcome)
    (q0 : List QueuedAction) (mid : List QOp) : List QueuedAction :=
  applyOps q0 (loopOps net q0 ++ mid ++ [QOp.replaceAll (syncLoop net q0).1])

/-- Result record of `executeWithFallback`. -/
structure EWFResult where
  success : Bool
  data : Option String
  queued : Bool
  error : Option String
  deriving DecidableEq, Repr

/-- Source `executeWithFallback(endpoint, options, fallbackData)`.  `net` is the
outcome of the direct `fetch` (status and body; `none` = network exception),
`isOnline` the monitor state, `freshId`/`now` the environment inputs consumed
by `queueAction` on the fallback path.  Returns the result record and the
action enqueued, if any. -/
def executeWithFallback (isOnline : Bool) (net : Option (Nat × String))
    (endpoint : String) (method : Option String) (fallbackData : Option String)
    (freshId : String) (now : Nat) : EWFResult × Option QueuedAction :=
  let offlinePath : EWFResult × Option QueuedAction :=
    match fallbackData with
    | some fd =>
      let m := (method.getD "POST").toUpper
      let type : ActionType :=
        if m = "POST" then .create else if m = "PUT" then .update else .delete
      let a := queueAction freshId now type endpoint fd
      ({ success := true, data := some a.id, queued := true, error := none },
       some a)
    | none =>
      ({ success := false, data := none, queued := false,
         error := some "Offline and no fallback data provided" }, none)
  if isOnline then
    match net with
    | some (s, body) =>
      if respOk s then
        ({ success := true, data := some body, queued := false, error := none },
         none)
      else
        ({ success := false, data := none, queued := false,
           error := some ("HTTP " ++ toString s) }, none)
    | none => offlinePath
  else offlinePath

/-! ## Service worker caching strategies (`public/sw.js`) -/

/-- A resolved HTTP response: status and body bytes. -/
structure Response where
  status : Nat
  body : String
  deriving DecidableEq, Repr

/-- Property `response.ok` of the Fetch API: status in 200–299. -/
def Response.ok (r : Response) : Bool := respOk r.status

/-- One named cache: an association list from request key (URL) to the stored
response.  `cache.put` overwrites the entry for the key. -/
abbrev Cache : Type := List (String × Response)

/-- Source `cache.match(request)`. -/
def cacheMatch (c : Cache) (url : String) : Option Response :=
  (c.find? (fun p => p.1 == url)).map Prod.snd

/-- Source `cache.put(request, response)`. -/
def cachePut (c : Cache) (url : String) (r : Response) : Cache :=
  (url, r) :: c.filter (fun p => p.1 != url)

/-- The network, as seen by the service worker: `none` = `fetch` rejects,
`some r` = `fetch` resolves with response `r` (any status). -/
abbrev Net : Type := String → Option Response

/-- Source `networkFirst(request, cacheName)`: try the network; cache and return any
response that resolved (caching only when `ok`); on a network exception fall
back to the cache for that exact key, else rethrow (`Except.error`). -/
def networkFirst (net : Net) (c : Cache) (url : String) :
    Except Unit Response × Cache :=
  match net url with
  | some r => (Except.ok r, if r.ok then cachePut c url r else c)
  | none =>
    match cacheMatch c url with
    | some cached => (Except.ok cached, c)
    | none => (Except.error (), c)

/-- Source `staleWhileRevalidate(request, cacheName)`.  The background fetch stores
the response only when it resolved `ok` and swallows any error, resolving to
`null` (`none`); the function returns the cached entry immediately when
present, otherwise the background fetch's promise.  The returned
`Except Unit` models promise rejection: this strategy never rejects. -/
def staleWhileRevalidate (net : Net) (c : Cache) (url : String) :
    Except Unit (Option Response) × Cache :=
  let cached := cacheMatch c url
  let cAfter :=
    match net url with
    | some r => if r.ok then cachePut c url r else c
    | none => c
  match cached with
  | some r => (Except.ok (some r), cAfter)
  | none =>
    (Except.ok (match net url with
                | some r => some r
                | none => none), cAfter)

/-- The three caches opened by the worker (`appflow-v1-static`,
`appflow-v1-dynamic`, `appflow-v1-api`). -/
structure CacheStore where
  static : Cache
  dynamic : Cache
  api : Cache

/-- Source `caches.match(request)`: search every cache, first hit wins. -/
def cachesMatch (s : CacheStore) (url : String) : Option Response :=
  match cacheMatch s.static url with
  | some r => some r
  | none =>
    match cacheMatch s.dynamic url with
    | some r => some r
    | none => cacheMatch s.api url

/-- The navigation branch of the fetch listener:
`networkFirst(request, DYNAMIC_CACHE).catch(() => caches.match('/offline') ||
caches.match('/'))`.  `caches.match('/offline')` is a promise, hence truthy,
so the `||` always picks it and the `caches.match('/')` operand is dead; the
handler resolves with whatever `'/offline'` lookup yields (possibly
`undefined`, modelled `none`). -/
def handleNavigate (net : Net) (s : CacheStore) (url : String) :
    Option Response × CacheStore :=
  match networkFirst net s.dynamic url with
  | (Except.ok r, d) => (some r, { s with dynamic := d })
  | (Except.error _, d) => (cachesMatch { s with dynamic := d } "/offline",
                            { s with dynamic := d })

/-- JavaScript `String.prototype.startsWith`, character-wise. -/
def strStartsWith (s p : String) : Bool := p.data.isPrefixOf s.data

/-- JavaScript `String.prototype.endsWith`, character-wise. -/
def strEndsWith (s p : String) : Bool := p.data.isSuffixOf s.data

/-- Source `isStaticAsset(pathname)`. -/
def isStaticAsset (pathname : String) : Bool :=
  [".js", ".css", ".woff", ".woff2", ".ttf", ".eot",
   ".png", ".jpg", ".jpeg", ".gif", ".svg", ".ico",
   ".webp", ".avif"].any (fun ext => strEndsWith pathname ext)

/-- The strategy the fetch listener dispatches a request to. -/
inductive Strategy where
  | passthrough
  | networkFirstApi
  | cacheFirstStatic
  | navigateFallback
  | staleRevalidate
  deriving DecidableEq, Repr

/-- The fetch listener's routing: non-GET and non-http(s) requests are never
intercepted; `/api/` paths go network-first against the api cache; static
asset extensions cache-first; navigations network-first with offline
fallback; everything else stale-while-revalidate. -/
def classify (method : String) (httpProtocol : Bool) (pathname : String)
    (isNavigate : Bool) : Strategy :=
  if method != "GET" then .passthrough
  else if !httpProtocol then .passthrough
  else if strStartsWith pathname "/api/" then .networkFirstApi
  else if isStaticAsset pathname then .cacheFirstStatic
  else if isNavigate then .navigateFallback
  else .staleRevalidate

/-! ## Concrete fixtures used by witnesses and counterexamples -/

/-- The `fetch` outcome counts as a success exactly when it resolved with an
ok status. -/
def fetchOk (o : FetchOutcome) : Bool :=
  match o with
  | some s => respOk s
  | none => false

/-- The per-action failing step iterated over `n` consecutive replay passes
whose fetch for the action fails every time: the action stays in the queue as
long as it is requeued, and once abandoned it is gone from later passes.
Returns (state of the action after the passes, dispatched events). -/
def iterFail : Nat → QueuedAction → Option QueuedAction × List QueuedAction
  | 0, a => (some a, [])
  | n + 1, a =>
    match syncFailBranch a with
    | (some b, evs) =>
      let t := iterFail n b
      (t.1, evs ++ t.2)
    | (none, evs) => (none, evs)

/-- Test mutation A. -/
def actA : QueuedAction :=
  { id := "A", type := .create, endpoint := "/api/a", data := "1",
    timestamp := 0, retries := 0 }

/-- Test mutation B. -/
def actB : QueuedAction :=
  { id := "B", type := .update, endpoint := "/api/b", data := "2",
    timestamp := 1, retries := 0 }

/-- Test mutation C. -/
def actC : QueuedAction :=
  { id := "C", type := .delete, endpoint := "/api/c", data := "3",
    timestamp := 2, retries := 0 }

/-- Test mutation D, enqueued while a replay pass is in flight. -/
def actD : QueuedAction := queueAction "D" 5 .create "/api/d" "4"

/-- A network on which every fetch resolves 200. -/
def netAllOk : QueuedAction → FetchOutcome := fun _ => some 200

/-- A network on which every fetch throws. -/
def netAllFail : QueuedAction → FetchOutcome := fun _ => none

/-- A network that fails (HTTP 500) exactly for mutation B. -/
def netFailOnlyB : QueuedAction → FetchOutcome :=
  fun a => if a.id == "B" then some 500 else some 200

/-- Hook state holding the queue `[A, B, C]`, not syncing. -/
def sABC : HookState :=
  { queue := [actA, actB, actC], isSyncing := false, storage := none }

/-- Hook state with a persisted one-element queue, for the clear scenario. -/
def sClear : HookState :=
  { queue := [actA], isSyncing := false,
    storage := some (serializeQueue [actA]) }

/-- A stored 200 response. -/
def rOld : Response := { status := 200, body := "old" }

/-- A fresher 200 response with a different body. -/
def rNew : Response := { status := 200, body := "new" }

/-- A 500 response. -/
def r500 : Response := { status := 500, body := "server error" }

/-- The precached offline fallback page. -/
def offlinePage : Response := { status := 200, body := "offline page" }

/-- A cache already holding `rOld` under the key `/u`. -/
def swCache0 : Cache := [("/u", rOld)]

/-- A network on which every fetch resolves HTTP 500. -/
def net500 : Net := fun _ => some r500

/-- A network on which every fetch rejects. -/
def netDownAll : Net := fun _ => none

/-- A network on which every fetch resolves with the given response. -/
def netServes (r : Response) : Net := fun _ => some r

/-- Cache store after install: the static cache holds the offline page. -/
def navStore : CacheStore :=
  { static := [("/offline", offlinePage), ("/", rOld)], dynamic := [], api := [] }

/-! ## Helper lemmas -/

theorem processAction_of_ok (net : QueuedAction → FetchOutcome) (a : QueuedAction)
    (h : fetchOk (net a) = true) : processAction net a = (none, []) := by
  cases hna : net a with
  | none => rw [hna] at h; simp [fetchOk] at h
  | some s =>
    rw [hna] at h
    simp only [fetchOk] at h
    simp [processAction, hna, h]

theorem processAction_of_fail (net : QueuedAction → FetchOutcome) (a : QueuedAction)
    (h : fetchOk (net a) = false) : processAction net a = syncFailBranch a := by
  cases hna : net a with
  | none => simp [processAction, hna]
  | some s =>
    rw [hna] at h
    simp only [fetchOk] at h
    simp [processAction, hna, h]

theorem syncLoop_writes (net : QueuedAction → FetchOutcome) :
    ∀ q : List QueuedAction, (syncLoop net q).2.2 = q := by
  intro q
  induction q with
  | nil => rfl
  | cons a rest ih => simp [syncLoop, ih]

theorem mem_syncFailBranch_retries (a b : QueuedAction)
    (hb : b ∈ (syncFailBranch a).1.toList) : b.retries ≤ MAX_RETRIES := by
  unfold syncFailBranch at hb
  by_cases hlt : a.retries < MAX_RETRIES
  · simp [hlt] at hb
    subst hb
    simpa using hlt
  · simp [hlt] at hb

theorem mem_syncLoop_retries (net : QueuedAction → FetchOutcome)
    (q : List QueuedAction) :
    ∀ b ∈ (syncLoop net q).1, b.retries ≤ MAX_RETRIES := by
  induction q with
  | nil => intro b hb; simp [syncLoop] at hb
  | cons a rest ih =>
    intro b hb
    simp only [syncLoop, List.mem_append] at hb
    rcases hb with hb | hb
    · have : b ∈ (syncFailBranch a).1.toList := by
        unfold processAction at hb
        cases hna : net a with
        | none => rw [hna] at hb; exact hb
        | some s =>
          rw [hna] at hb
          by_cases hok : respOk s = true
          · simp [hok] at hb
          · simp [hok] at hb; simpa using hb
      exact mem_syncFailBranch_retries a b this
    · exact ih b hb

theorem iterFail_requeued (k : Nat) :
    ∀ a : QueuedAction, a.retries + k ≤ MAX_RETRIES →
      iterFail k a = (some { a with retries := a.retries + k }, []) := by
  induction k with
  | zero => intro a _; simp [iterFail]
  | succ n ih =>
    intro a h
    have hlt : a.retries < MAX_RETRIES := by omega
    have step := ih { a with retries := a.retries + 1 } (by simp; omega)
    simp [iterFail, syncFailBranch, hlt, step]
    omega

theorem iterFail_abandons (a : QueuedAction) (h : a.retries = 0) :
    iterFail (MAX_RETRIES + 1) a = (none, [{ a with retries := MAX_RETRIES }]) := by
  obtain ⟨i, ty, e, d, ts, r⟩ := a
  simp only at h
  subst h
  simp [iterFail, syncFailBranch, MAX_RETRIES]

theorem cacheMatch_cachePut (c : Cache) (url : String) (r : Response) :
    cacheMatch (cachePut c url r) url = some r := by
  simp [cacheMatch, cachePut]

/-! ## Claims -/

/-- C1: replay walks the queue `[A, B, C]` in enqueue order on every run (the
fetches issued are exactly `[A, B, C]` in that order); with a network that
succeeds for A and C and fails for B, the pass removes A and C from the queue
and leaves B pending with its retry count incremented by one, and dispatches
no abandonment event. -/
theorem C1_replay_in_order (A B C : QueuedAction)
    (net : QueuedAction → FetchOutcome) (s : HookState)
    (hA : fetchOk (net A) = true) (hB : fetchOk (net B) = false)
    (hC : fetchOk (net C) = true) (hBr : B.retries = 0)
    (hq : s.queue = [A, B, C]) (hs : s.isSyncing = false) :
    syncQueue net s =
      ({ s with queue := [{ B with retries := 1 }], isSyncing := false },
       [A, B, C], []) := by
  have hpa := processAction_of_ok net A hA
  have hpb := processAction_of_fail net B hB
  have hpc := processAction_of_ok net C hC
  simp [syncQueue, hq, hs, syncLoop, hpa, hpb, hpc, syncFailBranch,
    MAX_RETRIES, hBr]

/-- Witness for C1 at the concrete queue `[actA, actB, actC]` and the network
that fails only for B. -/
theorem C1_witness :
    syncQueue netFailOnlyB sABC =
      ({ sABC with queue := [{ actB with retries := 1 }], isSyncing := false },
       [actA, actB, actC], []) :=
  C1_replay_in_order actA actB actC netFailOnlyB sABC (by decide) (by decide)
    (by decide) rfl rfl rfl

/-- C2: a queued mutation's retry count never exceeds `MAX_RETRIES` (every
action a replay pass leaves in the queue satisfies the bound, and `enqueue`
creates actions at retry count 0); an enqueued mutation whose fetch fails in
`k ≤ MAX_RETRIES` consecutive replay passes is still in the queue, pending,
with retry count `k` and no event dispatched; failing `MAX_RETRIES + 1` times
removes it from the queue and dispatches exactly one `offline-sync-failed`
event carrying the full mutation record. -/
theorem C2_retry_budget :
    (∀ (net : QueuedAction → FetchOutcome) (q : List QueuedAction),
        ∀ b ∈ (syncLoop net q).1, b.retries ≤ MAX_RETRIES) ∧
    (∀ (freshId : String) (now : Nat) (ty : ActionType) (endpoint data : String),
        (queueAction freshId now ty endpoint data).retries = 0) ∧
    (∀ a : QueuedAction, a.retries = 0 →
        (∀ k, k ≤ MAX_RETRIES →
            iterFail k a = (some { a with retries := k }, [])) ∧
        iterFail (MAX_RETRIES + 1) a =
          (none, [{ a with retries := MAX_RETRIES }])) := by
  refine ⟨mem_syncLoop_retries, fun _ _ _ _ _ => rfl, fun a ha => ⟨?_, ?_⟩⟩
  · intro k hk
    have := iterFail_requeued k a (by omega)
    rwa [ha, Nat.zero_add] at this
  · exact iterFail_abandons a ha

/-- Witness for C2: one requeued mutation respects the bound, and `actA`
abandons after `MAX_RETRIES + 1` failures with a single event. -/
theorem C2_witness :
    ({ actB with retries := 1 }).retries ≤ MAX_RETRIES ∧
    iterFail (MAX_RETRIES + 1) actA =
      (none, [{ actA with retries := MAX_RETRIES }]) :=
  ⟨C2_retry_budget.1 netAllFail [actB] { actB with retries := 1 } (by decide),
   (C2_retry_budget.2.2 actA rfl).2⟩

/-- C3 counterexample: with the monitor online, a fallback payload present and
the direct write resolving HTTP 500 (a non-2xx failure), `executeWithFallback`
returns an error outcome and enqueues nothing — the claim requires a queued
success here. -/
theorem C3_counterexample :
    executeWithFallback true (some (500, "server error")) "/api/a"
        (some "POST") (some "1") "id1" 7 =
      ({ success := false, data := none, queued := false,
         error := some "HTTP 500" }, none) := by
  decide

/-- C3 amended: with a fallback payload present, `executeWithFallback` enqueues
the operation and returns a queued success whenever the direct attempt throws
a network exception or the monitor reports offline; a non-2xx response while
online is returned as an error without enqueueing (shown by the
counterexample). -/
theorem C3_queued_success (isOnline : Bool) (net : Option (Nat × String))
    (endpoint : String) (method : Option String) (fd freshId : String)
    (now : Nat) (h : isOnline = false ∨ net = none) :
    (executeWithFallback isOnline net endpoint method (some fd) freshId now).1 =
      { success := true, data := some freshId, queued := true, error := none } ∧
    (executeWithFallback isOnline net endpoint method (some fd) freshId
        now).2.map QueuedAction.endpoint = some endpoint ∧
    (executeWithFallback isOnline net endpoint method (some fd) freshId
        now).2.map QueuedAction.data = some fd ∧
    (executeWithFallback isOnline net endpoint method (some fd) freshId
        now).2.map QueuedAction.retries = some 0 := by
  rcases h with h | h
  · subst h
    simp [executeWithFallback, queueAction]
  · subst h
    cases isOnline <;> simp [executeWithFallback, queueAction]

/-- Witness for C3 amended: offline with a fallback payload, the call queues
and reports success. -/
theorem C3_witness :
    (executeWithFallback false none "/api/a" (some "PUT") (some "1") "id2"
        9).1 =
      { success := true, data := some "id2", queued := true, error := none } ∧
    (executeWithFallback false none "/api/a" (some "PUT") (some "1") "id2"
        9).2.map QueuedAction.endpoint = some "/api/a" ∧
    (executeWithFallback false none "/api/a" (some "PUT") (some "1") "id2"
        9).2.map QueuedAction.data = some "1" ∧
    (executeWithFallback false none "/api/a" (some "PUT") (some "1") "id2"
        9).2.map QueuedAction.retries = some 0 :=
  C3_queued_success false none "/api/a" (some "PUT") "1" "id2" 9 (Or.inl rfl)

/-- C4: `syncQueue` is a no-op — state unchanged, no fetches issued, no events
dispatched — when a replay pass is already in flight (`isSyncing` set, which
is exactly the state a second overlapping call observes) or when the queue is
empty; and a pass that does run issues exactly one fetch per queued mutation,
in order, so overlapping calls never issue a mutation's write twice. -/
theorem C4_single_replay_pass (net : QueuedAction → FetchOutcome)
    (s : HookState) :
    (s.isSyncing = true → syncQueue net s = (s, [], [])) ∧
    (s.queue = [] → syncQueue net s = (s, [], [])) ∧
    (s.isSyncing = false → (syncQueue net s).2.1 = s.queue) := by
  refine ⟨fun h => by simp [syncQueue, h], fun h => by simp [syncQueue, h],
    fun h => ?_⟩
  rcases hq : s.queue with _ | ⟨a, rest⟩
  · simp [syncQueue, h, hq]
  · simp [syncQueue, h, hq, syncLoop_writes net (a :: rest)]

/-- Witness for C4: a call while syncing and a call on an empty queue change
nothing and fetch nothing; a running pass fetches each queued mutation once. -/
theorem C4_witness :
    syncQueue netAllOk { queue := [actA], isSyncing := true, storage := none } =
      ({ queue := [actA], isSyncing := true, storage := none }, [], []) ∧
    syncQueue netAllOk { queue := [], isSyncing := false, storage := none } =
      ({ queue := [], isSyncing := false, storage := none }, [], []) ∧
    (syncQueue netAllOk
        { queue := [actA], isSyncing := false, storage := none }).2.1 =
      [actA] :=
  ⟨(C4_single_replay_pass netAllOk _).1 rfl,
   (C4_single_replay_pass netAllOk _).2.1 rfl,
   (C4_single_replay_pass netAllOk _).2.2 rfl⟩

/-- C5: the final `setQueue(failedActions)` of a replay pass replaces the live
queue with the value computed from the start-of-pass snapshot, whatever
`setQueue` operations happened in between — so a mutation enqueued while the
pass was in flight is dropped, contradicting the claim: concretely, with
snapshot `[actA]`, a succeeding network and `actD` enqueued mid-pass, the
queue after the pass is empty and `actD` is gone. -/
theorem C5_midpass_enqueue_dropped :
    (∀ (q0 f : List QueuedAction) (ops : List QOp),
        applyOps q0 (ops ++ [QOp.replaceAll f]) = f) ∧
    syncRunWithMidOps netAllOk [actA] [QOp.enq actD] = [] ∧
    actD ∉ syncRunWithMidOps netAllOk [actA] [QOp.enq actD] := by
  refine ⟨fun q0 f ops => ?_, by decide, by decide⟩
  simp [applyOps, List.foldl_append, applyOp]

/-- C6: `clearQueue` empties the queue and removes the localStorage record,
but the persist effect on `[queue]` re-runs after the state change and writes
the serialized empty queue back, so the durable backing record is present
(holding `"[]"`), not removed entirely as the claim states. -/
theorem C6_clear_repersists_record :
    (clearQueue sClear).queue = [] ∧
    (clearQueue sClear).storage = none ∧
    (persistEffect (clearQueue sClear)).storage = some "[]" ∧
    (persistEffect (clearQueue sClear)).storage ≠ none := by
  refine ⟨rfl, rfl, by decide, by decide⟩

/-- C7: GET requests under `/api/` are routed to network-first; a response
that resolved 2xx is stored under the request's key and returned; a later
request for the same key with the network failing returns the stored
response unchanged (byte-identical), both in general and composed as a
two-request round trip; with the network failing and nothing stored the
failure is rethrown. -/
theorem C7_api_network_first :
    (∀ (p : String) (nav : Bool), strStartsWith p "/api/" = true →
        classify "GET" true p nav = Strategy.networkFirstApi) ∧
    (∀ (net : Net) (c : Cache) (url : String) (r : Response),
        net url = some r → r.ok = true →
        networkFirst net c url = (Except.ok r, cachePut c url r) ∧
        cacheMatch (cachePut c url r) url = some r) ∧
    (∀ (net2 : Net) (c : Cache) (url : String) (r : Response),
        net2 url = none → cacheMatch c url = some r →
        networkFirst net2 c url = (Except.ok r, c)) ∧
    (∀ (net net2 : Net) (c : Cache) (url : String) (r : Response),
        net url = some r → r.ok = true → net2 url = none →
        (networkFirst net2 (networkFirst net c url).2 url).1 = Except.ok r) ∧
    (∀ (net2 : Net) (c : Cache) (url : String),
        net2 url = none → cacheMatch c url = none →
        networkFirst net2 c url = (Except.error (), c)) := by
  refine ⟨fun p nav hp => ?_, fun net c url r hnet hok => ?_,
    fun net2 c url r hnet hc => ?_, fun net net2 c url r hnet hok hnet2 => ?_,
    fun net2 c url hnet hc => ?_⟩
  · simp [classify, hp]
  · exact ⟨by simp [networkFirst, hnet, hok], cacheMatch_cachePut c url r⟩
  · simp [networkFirst, hnet, hc]
  · simp [networkFirst, hnet, hok, hnet2, cacheMatch_cachePut]
  · simp [networkFirst, hnet, hc]

/-- Witness for C7: the round trip at concrete inputs — store `rNew` under
`/u`, then read it back byte-identically with the network down; routing,
miss-propagation and the stored-lookup leg at the same inputs. -/
theorem C7_witness :
    classify "GET" true "/api/records" false = Strategy.networkFirstApi ∧
    networkFirst (netServes rNew) ([] : Cache) "/u" =
      (Except.ok rNew, cachePut ([] : Cache) "/u" rNew) ∧
    networkFirst netDownAll (cachePut ([] : Cache) "/u" rNew) "/u" =
      (Except.ok rNew, cachePut ([] : Cache) "/u" rNew) ∧
    (networkFirst netDownAll
        (networkFirst (netServes rNew) ([] : Cache) "/u").2 "/u").1 =
      Except.ok rNew ∧
    networkFirst netDownAll ([] : Cache) "/u" =
      (Except.error (), ([] : Cache)) :=
  ⟨C7_api_network_first.1 "/api/records" false (by decide),
   (C7_api_network_first.2.1 (netServes rNew) ([] : Cache) "/u" rNew rfl
      (by decide)).1,
   C7_api_network_first.2.2.1 netDownAll (cachePut ([] : Cache) "/u" rNew)
     "/u" rNew rfl (by decide),
   C7_api_network_first.2.2.2.1 (netServes rNew) netDownAll ([] : Cache)
     "/u" rNew rfl (by decide) rfl,
   C7_api_network_first.2.2.2.2 netDownAll ([] : Cache) "/u" rfl rfl⟩

/-- C8 counterexample: with `rOld` stored under `/u` and the background fetch
resolving HTTP 500 (a failure), `staleWhileRevalidate` leaves the stored
entry as `rOld` — the entry is not updated after the background fetch
resolves, contradicting "updated ... regardless of whether that background
fetch succeeds or fails". -/
theorem C8_counterexample :
    (staleWhileRevalidate net500 swCache0 "/u").1 = Except.ok (some rOld) ∧
    cacheMatch (staleWhileRevalidate net500 swCache0 "/u").2 "/u" =
      some rOld ∧
    rOld ≠ r500 := by
  refine ⟨rfl, by decide, by decide⟩

/-- C8 amended: when a stored entry exists it is returned immediately, the
same value for every network (no waiting on the fetch); the background fetch
overwrites the stored entry only when it resolves 2xx, and leaves the store
unchanged on a non-2xx response or a network exception; when nothing is
stored the caller gets the network fetch's outcome. -/
theorem C8_swr_behaviour :
    (∀ (net : Net) (c : Cache) (url : String) (r : Response),
        cacheMatch c url = some r →
        (staleWhileRevalidate net c url).1 = Except.ok (some r)) ∧
    (∀ (net : Net) (c : Cache) (url : String) (r : Response),
        net url = some r → r.ok = true →
        cacheMatch (staleWhileRevalidate net c url).2 url = some r) ∧
    (∀ (net : Net) (c : Cache) (url : String) (r : Response),
        net url = some r → r.ok = false →
        (staleWhileRevalidate net c url).2 = c) ∧
    (∀ (net : Net) (c : Cache) (url : String),
        net url = none → (staleWhileRevalidate net c url).2 = c) ∧
    (∀ (net : Net) (c : Cache) (url : String),
        cacheMatch c url = none →
        (staleWhileRevalidate net c url).1 = Except.ok (net url)) := by
  refine ⟨fun net c url r hc => ?_, fun net c url r hnet hok => ?_,
    fun net c url r hnet hok => ?_, fun net c url hnet => ?_,
    fun net c url hc => ?_⟩
  · simp [staleWhileRevalidate, hc]
  · rcases hcm : cacheMatch c url with _ | s <;>
      simp [staleWhileRevalidate, hnet, hok, hcm, cacheMatch_cachePut]
  · rcases hcm : cacheMatch c url with _ | s <;>
      simp [staleWhileRevalidate, hnet, hok, hcm]
  · rcases hcm : cacheMatch c url with _ | s <;>
      simp [staleWhileRevalidate, hnet, hcm]
  · rcases hnet : net url with _ | r <;>
      simp [staleWhileRevalidate, hc, hnet]

/-- Witness for C8 amended at concrete inputs: immediate stale return with the
network down, overwrite on a 2xx background fetch, store untouched on a 500
and on an exception, and the empty-store case waiting on the fetch. -/
theorem C8_witness :
    (staleWhileRevalidate netDownAll swCache0 "/u").1 =
      Except.ok (some rOld) ∧
    cacheMatch (staleWhileRevalidate (netServes rNew) swCache0 "/u").2 "/u" =
      some rNew ∧
    (staleWhileRevalidate net500 swCache0 "/u").2 = swCache0 ∧
    (staleWhileRevalidate netDownAll swCache0 "/u").2 = swCache0 ∧
    (staleWhileRevalidate (netServes rNew) ([] : Cache) "/u").1 =
      Except.ok (netServes rNew "/u") :=
  ⟨C8_swr_behaviour.1 netDownAll swCache0 "/u" rOld (by decide),
   C8_swr_behaviour.2.1 (netServes rNew) swCache0 "/u" rNew rfl (by decide),
   C8_swr_behaviour.2.2.1 net500 swCache0 "/u" r500 rfl (by decide),
   C8_swr_behaviour.2.2.2.1 netDownAll swCache0 "/u" rfl,
   C8_swr_behaviour.2.2.2.2 (netServes rNew) ([] : Cache) "/u" rfl⟩

/-- C9: for a navigation request whose network fetch rejects and whose key has
no entry in the dynamic cache (total failure), the navigate branch of the
fetch listener returns the designated offline fallback page stored under
`/offline` (which install precaches), and touches no cache. -/
theorem C9_navigate_offline_fallback (net : Net) (s : CacheStore)
    (url : String) (p : Response) (hnet : net url = none)
    (hmiss : cacheMatch s.dynamic url = none)
    (hoff : cachesMatch s "/offline" = some p) :
    handleNavigate net s url = (some p, s) := by
  simp [handleNavigate, networkFirst, hnet, hmiss, hoff]

/-- Witness for C9: with the install-time store, a navigation to an uncached
page while the network is down yields the offline page. -/
theorem C9_witness :
    handleNavigate netDownAll navStore "/dashboard" =
      (some offlinePage, navStore) :=
  C9_navigate_offline_fallback netDownAll navStore "/dashboard" offlinePage
    rfl rfl (by decide)

/-- C10: stale-while-revalidate with nothing stored and a rejecting network
resolves to `null` (`none`) rather than rejecting (`Except.error`) — the
fetch failure is swallowed in the background-fetch handler — and the store is
untouched. -/
theorem C10_swr_swallows_error (net : Net) (c : Cache) (url : String)
    (hmiss : cacheMatch c url = none) (hnet : net url = none) :
    staleWhileRevalidate net c url = (Except.ok none, c) := by
  simp [staleWhileRevalidate, hmiss, hnet]

/-- Witness for C10 on the empty cache and a rejecting network. -/
theorem C10_witness :
    staleWhileRevalidate netDownAll ([] : Cache) "/u" =
      (Except.ok none, ([] : Cache)) :=
  C10_swr_swallows_error netDownAll ([] : Cache) "/u" rfl rfl

end AppFlow
